import Mathlib

/-!
Shallow embedding of `telegram-json-forwarder` (Go), file `src/main.go`.

The program receives a JSON object on `POST /webhook`, formats it into a
Markdown message (`sendToTelegram`'s message construction, with the helper
`formatTimingData` for the `"timing"` sub-object) and relays it to the
Telegram API.  We embed:

* the dynamically-typed JSON values (`JValue`) that `encoding/json`
  unmarshals into `map[string]interface{}` — JSON numbers always decode to
  `float64`, modelled here as `ℚ`;
* `formatTimingData`, whose unchecked Go type assertions
  `timingData[k].(float64)` panic when a field is absent or non-numeric —
  modelled by `Option` (with `none` for the panic);
* the message-construction loop of `sendToTelegram`, which special-cases
  only the key `"timing"`;
* the control flow of `webhookHandler` wrapped in `corsMiddleware`, with
  the outbound relay call abstracted by its outcome.

Messages are modelled structurally (lists of typed lines) rather than as
the literal strings built with `fmt.Sprintf`, so that claims about which
lines appear, their values and their order are directly statable.
-/

namespace TelegramForwarder

/-- A dynamically-typed JSON value as decoded by Go's `encoding/json` into
`interface{}`: JSON numbers always become `float64` (modelled as `ℚ`),
objects become `map[string]interface{}` (modelled as association lists to
keep an iteration order), arrays become `[]interface{}`. -/
inductive JValue where
  | str (s : String)
  | num (q : ℚ)
  | boolean (b : Bool)
  | obj (fields : List (String × JValue))
  | arr (elems : List JValue)
  | null

/-- A decoded webhook payload: `map[string]interface{}` in the Go source. -/
abbrev Payload := List (String × JValue)

/-- Go map indexing `m[k]`: the value of the first binding of `k`, if any
(Go maps have unique keys; `none` models the missing-key case, where Go
indexing yields a `nil` interface value). -/
def lookupJson : Payload → String → Option JValue
  | [], _ => none
  | (k2, v) :: rest, k => if k2 = k then some v else lookupJson rest k

/-- The Go type assertion `v.(float64)`: succeeds exactly on numeric values
(JSON numbers all decode to `float64`), panics otherwise. -/
def asFloat64 : JValue → Option ℚ
  | JValue.num q => some q
  | _ => none

/-- `timingData[k].(float64)` in `formatTimingData`: `none` models the
run-time panic of the unchecked assertion when the field is absent or
non-numeric. -/
def lookupNum (m : Payload) (k : String) : Option ℚ :=
  (lookupJson m k).bind asFloat64

/-- The seventeen timestamps `formatTimingData` reads from the timing map,
one Go type assertion each. -/
structure TimingFields where
  navigationStart : ℚ
  redirectStart : ℚ
  redirectEnd : ℚ
  fetchStart : ℚ
  domainLookupStart : ℚ
  domainLookupEnd : ℚ
  connectStart : ℚ
  connectEnd : ℚ
  secureConnectionStart : ℚ
  requestStart : ℚ
  responseStart : ℚ
  responseEnd : ℚ
  domLoading : ℚ
  domComplete : ℚ
  loadEventStart : ℚ
  loadEventEnd : ℚ
  domContentLoadedEventEnd : ℚ

/-- All the unchecked type assertions of `formatTimingData` (src/main.go
lines 86–111), in one pass: the whole function panics (`none`) as soon as
any referenced field is absent or non-numeric. -/
def readTimingFields (t : Payload) : Option TimingFields := do
  let navigationStart ← lookupNum t "navigationStart"
  let redirectStart ← lookupNum t "redirectStart"
  let redirectEnd ← lookupNum t "redirectEnd"
  let fetchStart ← lookupNum t "fetchStart"
  let domainLookupStart ← lookupNum t "domainLookupStart"
  let domainLookupEnd ← lookupNum t "domainLookupEnd"
  let connectStart ← lookupNum t "connectStart"
  let connectEnd ← lookupNum t "connectEnd"
  let secureConnectionStart ← lookupNum t "secureConnectionStart"
  let requestStart ← lookupNum t "requestStart"
  let responseStart ← lookupNum t "responseStart"
  let responseEnd ← lookupNum t "responseEnd"
  let domLoading ← lookupNum t "domLoading"
  let domComplete ← lookupNum t "domComplete"
  let loadEventStart ← lookupNum t "loadEventStart"
  let loadEventEnd ← lookupNum t "loadEventEnd"
  let domContentLoadedEventEnd ← lookupNum t "domContentLoadedEventEnd"
  some ⟨navigationStart, redirectStart, redirectEnd, fetchStart,
    domainLookupStart, domainLookupEnd, connectStart, connectEnd,
    secureConnectionStart, requestStart, responseStart, responseEnd,
    domLoading, domComplete, loadEventStart, loadEventEnd,
    domContentLoadedEventEnd⟩

/-- The names of the timestamps `formatTimingData` dereferences. -/
def requiredTimingFields : List String :=
  ["navigationStart", "redirectStart", "redirectEnd", "fetchStart",
   "domainLookupStart", "domainLookupEnd", "connectStart", "connectEnd",
   "secureConnectionStart", "requestStart", "responseStart", "responseEnd",
   "domLoading", "domComplete", "loadEventStart", "loadEventEnd",
   "domContentLoadedEventEnd"]

/-- The `calculatedTimes` map literal of `formatTimingData` (src/main.go
lines 88–100): eleven named intervals, each an end-minus-start
difference. -/
def calculatedTimes (f : TimingFields) : List (String × ℚ) :=
  [("Redirect", f.redirectEnd - f.redirectStart),
   ("AppCache", f.domainLookupStart - f.fetchStart),
   ("DNS Lookup", f.domainLookupEnd - f.domainLookupStart),
   ("TCP Connection", f.connectEnd - f.connectStart),
   ("SSL Handshake", f.connectEnd - f.secureConnectionStart),
   ("Request Sent", f.responseStart - f.requestStart),
   ("Response Received", f.responseEnd - f.responseStart),
   ("DOM Processing", f.domComplete - f.domLoading),
   ("Load Event", f.loadEventEnd - f.loadEventStart),
   ("DOMContentLoaded", f.domContentLoadedEventEnd - f.navigationStart),
   ("Finish", f.loadEventEnd - f.navigationStart)]

/-- One line of the waterfall string built by `formatTimingData`:
the `"*Waterfall Timing (in ms):*"` header, an interval line
`"*<label>:* <ms> ms"`, or the trailing `"*DOM Loading Time:* <ms> ms"`
line. -/
inductive TimingLine where
  | header
  | interval (label : String) (ms : ℚ)
  | domLoadingTime (ms : ℚ)
deriving DecidableEq, Repr

/-- `formatTimingData` (src/main.go lines 84–115) as the list of lines of
the waterfall string it builds: the header, then one line per entry of
`calculatedTimes` whose value is strictly positive (`if value > 0`), then —
appended after the loop, with no positivity test — the DOM loading time
`domLoading - navigationStart`.  `none` models the panic of an unchecked
type assertion. -/
def formatTimingData (t : Payload) : Option (List TimingLine) :=
  (readTimingFields t).map fun f =>
    TimingLine.header ::
      (((calculatedTimes f).filter fun p => 0 < p.2).map
        fun p => TimingLine.interval p.1 p.2)
      ++ [TimingLine.domLoadingTime (f.domLoading - f.navigationStart)]

/-- One piece of the message built by `sendToTelegram`: the
`"*Received message:*"` header, an embedded timing waterfall, or a generic
`"*<key>:* <value>"` line. -/
inductive MsgItem where
  | header
  | timing (lines : List TimingLine)
  | kv (key : String) (value : JValue)

/-- One iteration of the `for key, value := range data` loop of
`sendToTelegram` (src/main.go lines 121–130): the key `"timing"` is
special-cased — if its value is a map the timing waterfall is appended,
otherwise nothing at all is appended (the `ok` of the checked assertion is
false) — and every other key produces one generic `"*<key>:* <value>"`
line.  `none` models a panic inside `formatTimingData`. -/
def formatEntry (key : String) (v : JValue) : Option (List MsgItem) :=
  if key = "timing" then
    match v with
    | JValue.obj m => (formatTimingData m).map fun ls => [MsgItem.timing ls]
    | _ => some []
  else
    some [MsgItem.kv key v]

/-- The `for key, value := range data` loop of `sendToTelegram`,
concatenating each iteration's output into the string builder; a panic in
any iteration (`none`) aborts the whole construction. -/
def formatEntries : Payload → Option (List MsgItem)
  | [] => some []
  | p :: rest =>
      (formatEntry p.1 p.2).bind fun items =>
        (formatEntries rest).map fun restItems => items ++ restItems

/-- The message construction of `sendToTelegram` (src/main.go lines
117–130): the `"*Received message:*"` header followed by the loop's output
for each payload entry. -/
def sendToTelegramMessage (data : Payload) : Option (List MsgItem) :=
  (formatEntries data).map fun items => MsgItem.header :: items

/-- The outcome of the outbound `http.Post` to the Telegram API, as seen by
`sendToTelegram`: a transport failure, or a response with a status code. -/
inductive RelayResult where
  | networkError
  | status (code : Nat)
deriving DecidableEq, Repr

/-- The error value `sendToTelegram` returns. -/
inductive SendError where
  | network
  | badStatus (code : Nat)
deriving DecidableEq, Repr

/-- The result of `sendToTelegram` (src/main.go lines 117–156) given the
payload and the outcome of the outbound POST: an error on transport
failure or on any non-200 status, success on 200.  `none` models a panic
in the message construction. -/
def sendToTelegramResult (data : Payload) (relay : RelayResult) :
    Option (Except SendError Unit) :=
  (sendToTelegramMessage data).map fun _msg =>
    match relay with
    | RelayResult.networkError => Except.error SendError.network
    | RelayResult.status c =>
        if c = 200 then Except.ok () else Except.error (SendError.badStatus c)

/-- What the server observably did with one request: the response status,
whether the request body was read, and whether the outbound relay call was
made. -/
structure HandlerOutcome where
  status : Nat
  bodyRead : Bool
  relayCalled : Bool
deriving DecidableEq, Repr

/-- Whether reading or parsing the request body succeeds:
`ioutil.ReadAll` can fail, `json.Unmarshal` into
`map[string]interface{}` fails on anything but a JSON object. -/
inductive BodyParse where
  | unreadable
  | malformed
  | object (data : Payload)

/-- `webhookHandler` (src/main.go lines 55–82): non-POST methods are
rejected with 405 before the body is touched; a read failure or
unparseable JSON yields 400 with no relay call; otherwise `sendToTelegram`
is called and its error maps to 500, success to 200.  `none` models a
panic inside `sendToTelegram`. -/
def webhookHandler (method : String) (body : BodyParse)
    (relay : RelayResult) : Option HandlerOutcome :=
  if method ≠ "POST" then
    some ⟨405, false, false⟩
  else
    match body with
    | BodyParse.unreadable => some ⟨400, true, false⟩
    | BodyParse.malformed => some ⟨400, true, false⟩
    | BodyParse.object data =>
        match sendToTelegramResult data relay with
        | none => none
        | some (Except.error _) => some ⟨500, true, true⟩
        | some (Except.ok ()) => some ⟨200, true, true⟩

/-- `corsMiddleware` (src/main.go lines 32–48) around a handler result:
OPTIONS requests are answered 200 immediately, without invoking the
wrapped handler; every other request is passed through.  (The CORS
response headers it also sets do not affect status, body reading or the
relay and are not modelled.) -/
def corsMiddleware (method : String) (next : Option HandlerOutcome) :
    Option HandlerOutcome :=
  if method = "OPTIONS" then some ⟨200, false, false⟩ else next

/-- The `/webhook` route as registered in `main`:
`corsMiddleware(webhookHandler)`. -/
def serveWebhook (method : String) (body : BodyParse)
    (relay : RelayResult) : Option HandlerOutcome :=
  corsMiddleware method (webhookHandler method body relay)

/-- A scalar JSON value: string, number or boolean. -/
def JValue.isScalar : JValue → Bool
  | JValue.str _ => true
  | JValue.num _ => true
  | JValue.boolean _ => true
  | _ => false

/-! ## Concrete example inputs -/

/-- A timing mapping with every required field numeric:
`navigationStart = 0`, `domainLookupStart = 10`, `domainLookupEnd = 50`,
all other timestamps `0`. -/
def timingExample : Payload :=
  [("navigationStart", JValue.num 0), ("redirectStart", JValue.num 0),
   ("redirectEnd", JValue.num 0), ("fetchStart", JValue.num 0),
   ("domainLookupStart", JValue.num 10), ("domainLookupEnd", JValue.num 50),
   ("connectStart", JValue.num 0), ("connectEnd", JValue.num 0),
   ("secureConnectionStart", JValue.num 0), ("requestStart", JValue.num 0),
   ("responseStart", JValue.num 0), ("responseEnd", JValue.num 0),
   ("domLoading", JValue.num 0), ("domComplete", JValue.num 0),
   ("loadEventStart", JValue.num 0), ("loadEventEnd", JValue.num 0),
   ("domContentLoadedEventEnd", JValue.num 0)]

/-- The timestamps read from `timingExample`. -/
def timingExampleFields : TimingFields :=
  ⟨0, 0, 0, 0, 10, 50, 0, 0, 0, 0, 0, 0, 0, 0, 0, 0, 0⟩

/-- The waterfall lines produced for `timingExample`. -/
def timingExampleLines : List TimingLine :=
  TimingLine.header ::
    (((calculatedTimes timingExampleFields).filter fun p => 0 < p.2).map
      fun p => TimingLine.interval p.1 p.2)
    ++ [TimingLine.domLoadingTime
      (timingExampleFields.domLoading - timingExampleFields.navigationStart)]

/-- A timing mapping whose `domLoading` (40) lies before its
`navigationStart` (100), so the DOM loading time is negative. -/
def timingExampleNeg : Payload :=
  [("navigationStart", JValue.num 100), ("redirectStart", JValue.num 0),
   ("redirectEnd", JValue.num 0), ("fetchStart", JValue.num 0),
   ("domainLookupStart", JValue.num 0), ("domainLookupEnd", JValue.num 0),
   ("connectStart", JValue.num 0), ("connectEnd", JValue.num 0),
   ("secureConnectionStart", JValue.num 0), ("requestStart", JValue.num 0),
   ("responseStart", JValue.num 0), ("responseEnd", JValue.num 0),
   ("domLoading", JValue.num 40), ("domComplete", JValue.num 0),
   ("loadEventStart", JValue.num 0), ("loadEventEnd", JValue.num 0),
   ("domContentLoadedEventEnd", JValue.num 0)]

/-- The timestamps read from `timingExampleNeg`. -/
def timingExampleNegFields : TimingFields :=
  ⟨100, 0, 0, 0, 0, 0, 0, 0, 0, 0, 0, 0, 40, 0, 0, 0, 0⟩

/-- The waterfall lines produced for `timingExampleNeg`. -/
def timingExampleNegLines : List TimingLine :=
  TimingLine.header ::
    (((calculatedTimes timingExampleNegFields).filter fun p => 0 < p.2).map
      fun p => TimingLine.interval p.1 p.2)
    ++ [TimingLine.domLoadingTime
      (timingExampleNegFields.domLoading -
        timingExampleNegFields.navigationStart)]

/-- A flat payload of scalars with no special key. -/
def flatExample : Payload :=
  [("status", JValue.str "up"), ("count", JValue.num 3),
   ("ok", JValue.boolean true)]

/-! ## General lemmas -/

theorem readTimingFields_lookups {t : Payload} {f : TimingFields}
    (h : readTimingFields t = some f) :
    lookupNum t "navigationStart" = some f.navigationStart ∧
    lookupNum t "redirectStart" = some f.redirectStart ∧
    lookupNum t "redirectEnd" = some f.redirectEnd ∧
    lookupNum t "fetchStart" = some f.fetchStart ∧
    lookupNum t "domainLookupStart" = some f.domainLookupStart ∧
    lookupNum t "domainLookupEnd" = some f.domainLookupEnd ∧
    lookupNum t "connectStart" = some f.connectStart ∧
    lookupNum t "connectEnd" = some f.connectEnd ∧
    lookupNum t "secureConnectionStart" = some f.secureConnectionStart ∧
    lookupNum t "requestStart" = some f.requestStart ∧
    lookupNum t "responseStart" = some f.responseStart ∧
    lookupNum t "responseEnd" = some f.responseEnd ∧
    lookupNum t "domLoading" = some f.domLoading ∧
    lookupNum t "domComplete" = some f.domComplete ∧
    lookupNum t "loadEventStart" = some f.loadEventStart ∧
    lookupNum t "loadEventEnd" = some f.loadEventEnd ∧
    lookupNum t "domContentLoadedEventEnd" = some f.domContentLoadedEventEnd := by
  rw [readTimingFields] at h
  obtain ⟨q1, h1, h⟩ := Option.bind_eq_some.mp h
  obtain ⟨q2, h2, h⟩ := Option.bind_eq_some.mp h
  obtain ⟨q3, h3, h⟩ := Option.bind_eq_some.mp h
  obtain ⟨q4, h4, h⟩ := Option.bind_eq_some.mp h
  obtain ⟨q5, h5, h⟩ := Option.bind_eq_some.mp h
  obtain ⟨q6, h6, h⟩ := Option.bind_eq_some.mp h
  obtain ⟨q7, h7, h⟩ := Option.bind_eq_some.mp h
  obtain ⟨q8, h8, h⟩ := Option.bind_eq_some.mp h
  obtain ⟨q9, h9, h⟩ := Option.bind_eq_some.mp h
  obtain ⟨q10, h10, h⟩ := Option.bind_eq_some.mp h
  obtain ⟨q11, h11, h⟩ := Option.bind_eq_some.mp h
  obtain ⟨q12, h12, h⟩ := Option.bind_eq_some.mp h
  obtain ⟨q13, h13, h⟩ := Option.bind_eq_some.mp h
  obtain ⟨q14, h14, h⟩ := Option.bind_eq_some.mp h
  obtain ⟨q15, h15, h⟩ := Option.bind_eq_some.mp h
  obtain ⟨q16, h16, h⟩ := Option.bind_eq_some.mp h
  obtain ⟨q17, h17, h⟩ := Option.bind_eq_some.mp h
  obtain rfl := Option.some.inj h
  exact ⟨h1, h2, h3, h4, h5, h6, h7, h8, h9, h10, h11, h12, h13, h14, h15, h16, h17⟩

/-- Successful `formatTimingData` exposes the read fields and the exact
shape of the waterfall: header, positively-valued intervals, trailing DOM
loading time. -/
theorem formatTimingData_eq_some {t : Payload} {ls : List TimingLine}
    (hls : formatTimingData t = some ls) :
    ∃ f, readTimingFields t = some f ∧
      ls = TimingLine.header ::
        (((calculatedTimes f).filter fun p => 0 < p.2).map
          fun p => TimingLine.interval p.1 p.2)
        ++ [TimingLine.domLoadingTime (f.domLoading - f.navigationStart)] := by
  rcases hr : readTimingFields t with _ | f
  · rw [formatTimingData, hr] at hls
    exact absurd hls (by simp)
  · rw [formatTimingData, hr, Option.map_some'] at hls
    exact ⟨f, rfl, (Option.some.inj hls).symm⟩

/-- An interval line is in the waterfall exactly when the corresponding
entry of `calculatedTimes` has a strictly positive value. -/
theorem mem_formatTimingData_interval {t : Payload} {f : TimingFields}
    {ls : List TimingLine} (hf : readTimingFields t = some f)
    (hls : formatTimingData t = some ls) (lbl : String) (v : ℚ) :
    TimingLine.interval lbl v ∈ ls ↔
      ((lbl, v) ∈ calculatedTimes f ∧ 0 < v) := by
  obtain ⟨f2, hf2, rfl⟩ := formatTimingData_eq_some hls
  obtain rfl : f = f2 := Option.some.inj (hf.symm.trans hf2)
  simp only [List.mem_cons, List.mem_append, List.mem_map, List.mem_filter,
    List.mem_singleton, List.not_mem_nil, reduceCtorEq, false_or, or_false]
  constructor
  · rintro ⟨p, ⟨hp, hpos⟩, hinj⟩
    obtain ⟨rfl, rfl⟩ : p.1 = lbl ∧ p.2 = v := by
      cases hinj
      exact ⟨rfl, rfl⟩
    exact ⟨hp, of_decide_eq_true hpos⟩
  · rintro ⟨hmem, hpos⟩
    exact ⟨(lbl, v), ⟨hmem, decide_eq_true hpos⟩, rfl⟩

/-! ## Claim theorems -/

/-- **C3.** `formatTimingData` succeeds (its panic branch is unreachable)
exactly when every one of the seventeen timestamp fields it dereferences is
present in the timing mapping with a numeric value; if any one of them is
absent or non-numeric, the unchecked type assertion panics (modelled by
`none`) instead of returning an error or skipping the field. -/
theorem formatTimingData_total_iff_fields_present (t : Payload) :
    (formatTimingData t).isSome ↔
      ∀ k ∈ requiredTimingFields, (lookupNum t k).isSome := by
  constructor
  · intro h k hk
    rw [formatTimingData, Option.isSome_map'] at h
    obtain ⟨f, hf⟩ := Option.isSome_iff_exists.mp h
    obtain ⟨l1, l2, l3, l4, l5, l6, l7, l8, l9, l10, l11, l12, l13, l14, l15,
      l16, l17⟩ := readTimingFields_lookups hf
    simp only [requiredTimingFields, List.mem_cons, List.not_mem_nil,
      or_false] at hk
    rcases hk with rfl | rfl | rfl | rfl | rfl | rfl | rfl | rfl | rfl | rfl |
      rfl | rfl | rfl | rfl | rfl | rfl | rfl <;> simp_all
  · intro h
    obtain ⟨q1, hq1⟩ := Option.isSome_iff_exists.mp (h "navigationStart" (by decide))
    obtain ⟨q2, hq2⟩ := Option.isSome_iff_exists.mp (h "redirectStart" (by decide))
    obtain ⟨q3, hq3⟩ := Option.isSome_iff_exists.mp (h "redirectEnd" (by decide))
    obtain ⟨q4, hq4⟩ := Option.isSome_iff_exists.mp (h "fetchStart" (by decide))
    obtain ⟨q5, hq5⟩ := Option.isSome_iff_exists.mp (h "domainLookupStart" (by decide))
    obtain ⟨q6, hq6⟩ := Option.isSome_iff_exists.mp (h "domainLookupEnd" (by decide))
    obtain ⟨q7, hq7⟩ := Option.isSome_iff_exists.mp (h "connectStart" (by decide))
    obtain ⟨q8, hq8⟩ := Option.isSome_iff_exists.mp (h "connectEnd" (by decide))
    obtain ⟨q9, hq9⟩ := Option.isSome_iff_exists.mp (h "secureConnectionStart" (by decide))
    obtain ⟨q10, hq10⟩ := Option.isSome_iff_exists.mp (h "requestStart" (by decide))
    obtain ⟨q11, hq11⟩ := Option.isSome_iff_exists.mp (h "responseStart" (by decide))
    obtain ⟨q12, hq12⟩ := Option.isSome_iff_exists.mp (h "responseEnd" (by decide))
    obtain ⟨q13, hq13⟩ := Option.isSome_iff_exists.mp (h "domLoading" (by decide))
    obtain ⟨q14, hq14⟩ := Option.isSome_iff_exists.mp (h "domComplete" (by decide))
    obtain ⟨q15, hq15⟩ := Option.isSome_iff_exists.mp (h "loadEventStart" (by decide))
    obtain ⟨q16, hq16⟩ := Option.isSome_iff_exists.mp (h "loadEventEnd" (by decide))
    obtain ⟨q17, hq17⟩ := Option.isSome_iff_exists.mp (h "domContentLoadedEventEnd" (by decide))
    rw [formatTimingData, Option.isSome_map']
    simp only [readTimingFields, hq1, hq2, hq3, hq4, hq5, hq6, hq7, hq8, hq9,
      hq10, hq11, hq12, hq13, hq14, hq15, hq16, hq17, Option.some_bind]
    rfl

/-- **C4.** For a timing mapping satisfying the field preconditions, a named
derived interval appears as a line of the timing block exactly when its
end-minus-start value is strictly positive: the loop keeps precisely the
entries of `calculatedTimes` with `value > 0`. -/
theorem interval_line_iff_positive {t : Payload} {f : TimingFields}
    {ls : List TimingLine} (hf : readTimingFields t = some f)
    (hls : formatTimingData t = some ls) :
    ∀ lbl v, TimingLine.interval lbl v ∈ ls ↔
      ((lbl, v) ∈ calculatedTimes f ∧ 0 < v) :=
  fun lbl v => mem_formatTimingData_interval hf hls lbl v

/-- **C10.** For a timing mapping satisfying the field preconditions, the
timing block always ends with the `"DOM Loading Time"` line, whose value is
`domLoading - navigationStart`; it is appended after the loop with no
positivity test, so it is present even when that value is zero or
negative, unlike the interval lines. -/
theorem dom_loading_time_line_last {t : Payload} {f : TimingFields}
    {ls : List TimingLine} (hf : readTimingFields t = some f)
    (hls : formatTimingData t = some ls) :
    ls.getLast? =
      some (TimingLine.domLoadingTime (f.domLoading - f.navigationStart)) := by
  obtain ⟨f2, hf2, rfl⟩ := formatTimingData_eq_some hls
  obtain rfl : f = f2 := Option.some.inj (hf.symm.trans hf2)
  rw [List.getLast?_concat]

/-- **C2.** A timing mapping with `navigationStart = 0`,
`domainLookupStart = 10`, `domainLookupEnd = 50` (and the other required
fields present as numbers, so that `formatTimingData` succeeds) yields a
`"DNS Lookup"` interval line of value `40`, which is non-negative. -/
theorem dns_lookup_interval_forty {t : Payload} {ls : List TimingLine}
    (h0 : lookupNum t "navigationStart" = some 0)
    (h1 : lookupNum t "domainLookupStart" = some 10)
    (h2 : lookupNum t "domainLookupEnd" = some 50)
    (hls : formatTimingData t = some ls) :
    TimingLine.interval "DNS Lookup" 40 ∈ ls ∧ (0 : ℚ) ≤ 40 := by
  obtain ⟨f, hf, rfl⟩ := formatTimingData_eq_some hls
  obtain ⟨l1, l2, l3, l4, l5, l6, lrest⟩ := readTimingFields_lookups hf
  have e5 : f.domainLookupStart = 10 := Option.some.inj (l5.symm.trans h1)
  have e6 : f.domainLookupEnd = 50 := Option.some.inj (l6.symm.trans h2)
  refine ⟨?_, by norm_num⟩
  rw [mem_formatTimingData_interval hf hls]
  refine ⟨?_, by norm_num⟩
  have e40 : (40 : ℚ) = f.domainLookupEnd - f.domainLookupStart := by
    rw [e5, e6]
    norm_num
  rw [e40]
  simp [calculatedTimes]

/-- When no key of the payload is `"timing"`, the loop of `sendToTelegram`
takes the `default` branch on every entry and produces exactly one generic
line per entry. -/
theorem formatEntries_no_timing (data : Payload)
    (hno : "timing" ∉ data.map Prod.fst) :
    formatEntries data = some (data.map fun p => MsgItem.kv p.1 p.2) := by
  induction data with
  | nil => rfl
  | cons hd tl ih =>
    have hhd : hd.1 ≠ "timing" := by
      intro h
      exact hno (by simp [h])
    have htl : "timing" ∉ tl.map Prod.fst := by
      intro h
      exact hno (by simp [h])
    rw [formatEntries, ih htl]
    simp only [formatEntry, if_neg hhd, Option.some_bind, Option.map_some',
      List.map_cons, List.singleton_append]

/-- **C5.** For a payload none of whose keys is the special-cased
`"timing"` (in particular any flat object of scalars, with `"resources"`
not treated specially either), the formatted message is the
`"*Received message:*"` header followed by exactly one generic
`*key:* value` line per entry, in order. -/
theorem flat_payload_one_line_per_key (data : Payload)
    (hflat : ∀ p ∈ data, p.2.isScalar)
    (hno : "timing" ∉ data.map Prod.fst) :
    sendToTelegramMessage data =
      some (MsgItem.header :: data.map fun p => MsgItem.kv p.1 p.2) := by
  rw [sendToTelegramMessage, formatEntries_no_timing data hno,
    Option.map_some']

/-- Dropping a loop entry that contributes no items leaves the loop's
output unchanged. -/
theorem formatEntries_drop {v : JValue}
    (hfe : formatEntry "timing" v = some []) (pre post : Payload) :
    formatEntries (pre ++ ("timing", v) :: post) =
      formatEntries (pre ++ post) := by
  induction pre with
  | nil =>
    simp only [List.nil_append, formatEntries, hfe, Option.some_bind]
    cases formatEntries post <;> rfl
  | cons hd tl ih =>
    simp only [List.cons_append, formatEntries, List.append_eq, ih]

/-- **C9.** A `"timing"` key whose value is not a mapping contributes no
line at all to the message: the checked assertion's `ok` is false, nothing
is appended in that iteration, and removing the entry from the payload
leaves the formatted message unchanged. -/
theorem timing_nonmap_silently_dropped (v : JValue)
    (hv : ∀ m, v ≠ JValue.obj m) :
    formatEntry "timing" v = some [] ∧
    ∀ pre post : Payload,
      sendToTelegramMessage (pre ++ ("timing", v) :: post) =
        sendToTelegramMessage (pre ++ post) := by
  have hfe : formatEntry "timing" v = some [] := by
    cases v with
    | obj m => exact absurd rfl (hv m)
    | str s => rfl
    | num q => rfl
    | boolean b => rfl
    | arr elems => rfl
    | null => rfl
  exact ⟨hfe, fun pre post => by
    rw [sendToTelegramMessage, sendToTelegramMessage,
      formatEntries_drop hfe pre post]⟩

/-- **C1 counterexample.** The loop of `sendToTelegram` has no case for the
key `"resources"`: a payload whose only key is `"resources"`, holding a
list of two mappings, is formatted as the header plus a *single* generic
`*resources:* value` line — not two per-resource blocks with blank-line
separators.  The computed message contains exactly two items, neither of
which is a per-resource block. -/
theorem resources_one_generic_line_cex :
    sendToTelegramMessage
        [("resources", JValue.arr [JValue.obj [], JValue.obj []])] =
      some [MsgItem.header,
        MsgItem.kv "resources" (JValue.arr [JValue.obj [], JValue.obj []])] :=
  rfl

/-- **C1 (amended).** The key `"resources"` receives no special handling:
whatever its value — in particular a list of N mappings — the loop body
appends exactly one generic `*resources:* value` line for it, like any
other non-`"timing"` key. -/
theorem resources_rendered_generically (v : JValue) :
    formatEntry "resources" v = some [MsgItem.kv "resources" v] :=
  rfl

/-- **C6.** A POST to `/webhook` whose body cannot be read or cannot be
parsed as a JSON object is answered 400, and the relay is never invoked
(no outbound POST occurs). -/
theorem unparseable_body_400_no_relay (relay : RelayResult) :
    serveWebhook "POST" BodyParse.malformed relay = some ⟨400, true, false⟩ ∧
    serveWebhook "POST" BodyParse.unreadable relay =
      some ⟨400, true, false⟩ :=
  ⟨rfl, rfl⟩

/-- **C7.** For a successfully parsed POST (whose message construction does
not panic), the response status is a function of the relay outcome: 200
exactly when the Telegram API answered 200, and 500 on a transport error
or any other status; the body was read and the relay was called. -/
theorem parsed_post_status_follows_relay (data : Payload)
    (relay : RelayResult) (hfmt : (sendToTelegramMessage data).isSome) :
    serveWebhook "POST" (BodyParse.object data) relay =
      some ⟨if relay = RelayResult.status 200 then 200 else 500,
        true, true⟩ := by
  obtain ⟨msg, hm⟩ := Option.isSome_iff_exists.mp hfmt
  cases relay with
  | networkError =>
    simp [serveWebhook, corsMiddleware, webhookHandler,
      sendToTelegramResult, hm]
  | status c =>
    by_cases hc : c = 200
    · subst hc
      simp [serveWebhook, corsMiddleware, webhookHandler,
        sendToTelegramResult, hm]
    · simp [serveWebhook, corsMiddleware, webhookHandler,
        sendToTelegramResult, hm, hc]

/-- **C8 counterexample.** An OPTIONS request to `/webhook` is not POST,
yet the server answers it 200 from `corsMiddleware` — not 405. -/
theorem non_post_405_cex :
    serveWebhook "OPTIONS" (BodyParse.object []) RelayResult.networkError =
        some ⟨200, false, false⟩ ∧
      ("OPTIONS" : String) ≠ "POST" :=
  ⟨rfl, by decide⟩

/-- **C8 (amended).** For every request to `/webhook` whose method is
neither POST nor OPTIONS, the server responds 405 without reading the body
and without calling the relay; OPTIONS requests are instead answered 200 by
the CORS middleware before the handler runs. -/
theorem non_post_non_options_405 (method : String) (body : BodyParse)
    (relay : RelayResult) (hpost : method ≠ "POST")
    (hopt : method ≠ "OPTIONS") :
    serveWebhook method body relay = some ⟨405, false, false⟩ := by
  rw [serveWebhook, corsMiddleware, if_neg hopt, webhookHandler.eq_def,
    if_pos hpost]

/-! ## Witnesses -/

/-- Witness for C2 at `timingExample`: all hypotheses hold there and the
DNS Lookup line of value 40 is in the produced block. -/
theorem dns_lookup_interval_forty_witness :
    lookupNum timingExample "navigationStart" = some 0 ∧
    lookupNum timingExample "domainLookupStart" = some 10 ∧
    lookupNum timingExample "domainLookupEnd" = some 50 ∧
    formatTimingData timingExample = some timingExampleLines ∧
    (TimingLine.interval "DNS Lookup" 40 ∈ timingExampleLines ∧
      (0 : ℚ) ≤ 40) :=
  ⟨rfl, rfl, rfl, rfl,
    @dns_lookup_interval_forty timingExample timingExampleLines
      rfl rfl rfl rfl⟩

/-- Witness for C4 at `timingExample`, instantiated at the DNS Lookup
interval. -/
theorem interval_line_iff_positive_witness :
    readTimingFields timingExample = some timingExampleFields ∧
    formatTimingData timingExample = some timingExampleLines ∧
    (TimingLine.interval "DNS Lookup" 40 ∈ timingExampleLines ↔
      (("DNS Lookup", (40 : ℚ)) ∈ calculatedTimes timingExampleFields ∧
        (0 : ℚ) < 40)) :=
  ⟨rfl, rfl,
    @interval_line_iff_positive timingExample timingExampleFields
      timingExampleLines rfl rfl "DNS Lookup" 40⟩

/-- Witness for C10 at `timingExampleNeg`, where the DOM loading time
`40 - 100` is negative and the line is still last. -/
theorem dom_loading_time_line_last_witness :
    readTimingFields timingExampleNeg = some timingExampleNegFields ∧
    formatTimingData timingExampleNeg = some timingExampleNegLines ∧
    timingExampleNegLines.getLast? =
      some (TimingLine.domLoadingTime
        (timingExampleNegFields.domLoading -
          timingExampleNegFields.navigationStart)) :=
  ⟨rfl, rfl,
    @dom_loading_time_line_last timingExampleNeg timingExampleNegFields
      timingExampleNegLines rfl rfl⟩

/-- Witness for C5 at `flatExample`. -/
theorem flat_payload_one_line_per_key_witness :
    (∀ p ∈ flatExample, p.2.isScalar) ∧
    "timing" ∉ flatExample.map Prod.fst ∧
    sendToTelegramMessage flatExample =
      some (MsgItem.header :: flatExample.map fun p => MsgItem.kv p.1 p.2) :=
  ⟨by decide, by decide,
    flat_payload_one_line_per_key flatExample (by decide) (by decide)⟩

/-- Witness for C7 at a one-entry payload and a 200 relay response. -/
theorem parsed_post_status_follows_relay_witness :
    (sendToTelegramMessage [("a", JValue.str "b")]).isSome ∧
    serveWebhook "POST" (BodyParse.object [("a", JValue.str "b")])
        (RelayResult.status 200) =
      some ⟨if RelayResult.status 200 = RelayResult.status 200 then 200
        else 500, true, true⟩ :=
  ⟨rfl, parsed_post_status_follows_relay [("a", JValue.str "b")]
    (RelayResult.status 200) rfl⟩

/-- Witness for C9 at a string-valued `"timing"` entry. -/
theorem timing_nonmap_silently_dropped_witness :
    formatEntry "timing" (JValue.str "oops") = some [] ∧
    sendToTelegramMessage
        [("a", JValue.str "b"), ("timing", JValue.str "oops")] =
      sendToTelegramMessage [("a", JValue.str "b")] := by
  have h := timing_nonmap_silently_dropped (JValue.str "oops")
    (fun m hm => JValue.noConfusion hm)
  exact ⟨h.1, h.2 [("a", JValue.str "b")] []⟩

/-- Witness for the amended C8 at a GET request. -/
theorem non_post_non_options_405_witness :
    ("GET" : String) ≠ "POST" ∧ ("GET" : String) ≠ "OPTIONS" ∧
    serveWebhook "GET" (BodyParse.object []) RelayResult.networkError =
      some ⟨405, false, false⟩ :=
  ⟨by decide, by decide,
    non_post_non_options_405 "GET" (BodyParse.object [])
      RelayResult.networkError (by decide) (by decide)⟩

end TelegramForwarder
